import Mathlib

/-!
Shallow embedding of the real-estate extraction pipeline and monitor engine
(`src/realEstateTools.js`, scheduler module).  JavaScript objects produced by
`JSON.parse` are modelled by the `Json` inductive; machine timestamps are
integers counting milliseconds (the value of `Date.now()` / date subtraction);
external collaborators (the upstream Apify client, the Puppeteer renderer, the
LLM, axios+cheerio, the builtin `JSON.parse`, and the builtin regex engine
applied to the repository's fixed patterns) are passed as explicit function
parameters, since their implementations are not part of the repository.
-/

/-- JavaScript values as produced by `JSON.parse`, plus `undefined` for absent
object properties. -/
inductive Json where
  | null : Json
  | undefined : Json
  | bool : Bool → Json
  | num : Int → Json
  | str : String → Json
  | arr : List Json → Json
  | obj : List (String × Json) → Json

/-- Property access `j[key]`: on objects, first binding for the key;
`undefined` otherwise (absent key or non-object receiver). -/
def jsGet (j : Json) (key : String) : Json :=
  match j with
  | .obj fs =>
    match fs.find? (fun f => f.1 == key) with
    | some f => f.2
    | none => .undefined
  | _ => .undefined

/-- JavaScript truthiness of a value. -/
def jsTruthy : Json → Bool
  | .null => false
  | .undefined => false
  | .bool b => b
  | .num n => n != 0
  | .str s => s != ""
  | .arr _ => true
  | .obj _ => true

/-- JavaScript `a || b`: the first operand when truthy, otherwise the second. -/
def jsOr (a b : Json) : Json := if jsTruthy a then a else b

/-- Truthiness of an optional numeric argument (`if (bedrooms) ...` in the
source: `undefined` and `0` are falsy). -/
def optTruthy : Option Int → Bool
  | some n => n != 0
  | none => false

/-- The `details` sub-object shared by every listing shape. -/
structure ListingDetails where
  bedrooms : String
  bathrooms : String
  squareFeet : String
deriving DecidableEq

/-- A listing as handled by the monitor engine and produced by the pattern
and simple-parsing tiers (all fields are strings there; `url` may be empty). -/
structure Listing where
  title : String
  price : String
  address : String
  details : ListingDetails
  description : String
  url : String
  source : String
deriving DecidableEq

/-- The `details` sub-object with raw JavaScript values (tier-1 mapping and the
model-extraction mapping keep whatever value the upstream JSON held). -/
structure JsonDetails where
  bedrooms : Json
  bathrooms : Json
  squareFeet : Json

/-- Listing produced by `processRealEstateListings` (tier 1): fields are raw
JavaScript values from the upstream items, except the provenance tag. -/
structure RawListing where
  title : Json
  price : Json
  address : Json
  details : JsonDetails
  description : Json
  url : Json
  source : String
  imageUrl : Json
  listingAgent : Json
  listingStatus : Json

/-- Listing produced by `processLLMResponse` (model-extraction sub-tier). -/
structure LLMListing where
  title : Json
  price : Json
  address : Json
  details : JsonDetails
  description : Json
  url : Json
  source : String

/-- The result shape every tier serializes back to its caller:
`{count, listings, note?, error?}`. -/
structure ExtractionResult (α : Type) where
  count : Nat
  listings : List α
  note : Option String := none
  error : Option String := none
deriving DecidableEq

/-- Invariant `r.count = r.listings.length` — the invariant claimed for every
`ExtractionResult`. -/
def countEqLen {α : Type} (r : ExtractionResult α) : Prop :=
  r.count = r.listings.length

/-- The invariant lifted to an optional result (`null` trivially satisfies it). -/
def optCountEqLen {α : Type} : Option (ExtractionResult α) → Prop
  | none => True
  | some r => countEqLen r

/-- Normalized search criteria (the tool's zod schema, after validation). -/
structure Criteria where
  location : String
  minPrice : Option Int
  maxPrice : Option Int
  propertyType : String
  bedrooms : Option Int
  bathrooms : Option Int
  maxResults : Int
  source : String
  forceFallback : Bool
deriving DecidableEq

/-- A monitor's persisted configuration.  `lastChecked`/`nextRun` are
millisecond timestamps (the source stores ISO strings; the conversion is
bijective); `lastResults` holds the value whose JSON serialization the source
stores (serialize/parse round-trips are modelled as the identity). -/
structure MonitorConfig where
  id : String
  createdAt : Option Int := none
  criteria : Criteria
  frequency : Option String
  notificationEmail : Option String := none
  lastChecked : Option Int
  lastResults : Option (ExtractionResult Listing)
  nextRun : Option Int := none
deriving DecidableEq

/-- Function `findNewListings(currentListings, previousListings)` from the scheduler
module: on an empty/absent previous list return the current list; otherwise
drop every current listing whose `url` is in the set of previous `url`s
(`new Set(previousListings.map(l => l.url))`, membership being string
equality). -/
def findNewListings (currentListings previousListings : List Listing) : List Listing :=
  if previousListings.isEmpty then
    currentListings
  else
    let existingUrls := previousListings.map (fun l => l.url)
    currentListings.filter (fun l => !(existingUrls.contains l.url))

/-- C1's spec-side diff, written from the claim's words: build the set of
NON-EMPTY `url` values from `previous`; keep every `current` listing whose
`url` is empty or absent from that set. -/
def findNewSpecClaim (currentListings previousListings : List Listing) : List Listing :=
  if previousListings.isEmpty then
    currentListings
  else
    let nonEmptyUrls := (previousListings.map (fun l => l.url)).filter (fun u => u != "")
    currentListings.filter (fun l => (l.url == "") || !(nonEmptyUrls.contains l.url))

/-- The amended novelty diff, written from the amended claim's words: the set
is built from ALL `url` values of `previous` (empty ones included), and a
current listing is kept exactly when no previous listing has the same `url`. -/
def findNewSpecAmended (currentListings previousListings : List Listing) : List Listing :=
  if previousListings.isEmpty then
    currentListings
  else
    currentListings.filter (fun l => decide (∀ p ∈ previousListings, p.url ≠ l.url))

/-- Function `shouldRunMonitor(monitorConfig, currentTime)` from the scheduler module:
run when never checked; otherwise compare the elapsed hours
`(currentTime - lastChecked) / (1000*60*60)` against the frequency's
threshold (the `switch` is translated as an if-chain on the same string
comparisons; the JavaScript floating-point division is modelled exactly over
`ℚ`). -/
def shouldRunMonitor (cfg : MonitorConfig) (now : Int) : Bool :=
  match cfg.lastChecked with
  | none => true
  | some t =>
    let hoursSinceLastCheck : ℚ := ((now - t : ℤ) : ℚ) / (1000 * 60 * 60)
    if cfg.frequency = some "realtime" then decide (hoursSinceLastCheck ≥ 0.25)
    else if cfg.frequency = some "daily" then decide (hoursSinceLastCheck ≥ 24)
    else if cfg.frequency = some "weekly" then decide (hoursSinceLastCheck ≥ 168)
    else decide (hoursSinceLastCheck ≥ 24)

/-- C3's spec-side threshold table, written from the claim's words. -/
def thresholdHours (f : Option String) : ℚ :=
  if f = some "realtime" then 0.25
  else if f = some "daily" then 24
  else if f = some "weekly" then 168
  else 24

/-- C3's spec-side eligibility test, written from the claim's words: true when
`lastChecked` is null, else true iff the elapsed hours reach the threshold. -/
def shouldRunSpec (cfg : MonitorConfig) (now : Int) : Bool :=
  match cfg.lastChecked with
  | none => true
  | some t => decide ((((now - t : ℤ) : ℚ) / 3600000) ≥ thresholdHours cfg.frequency)

/-- Function `getNextRunTime(frequency)` from the scheduler module, with the ambient
`new Date()` clock passed explicitly; `setMinutes(+15)` / `setDate(+1)` /
`setDate(+7)` advance the linear millisecond clock by fixed-length minutes and
days. -/
def getNextRunTime (frequency : Option String) (now : Int) : Int :=
  if frequency = some "realtime" then now + 15 * 60 * 1000
  else if frequency = some "daily" then now + 24 * 60 * 60 * 1000
  else if frequency = some "weekly" then now + 7 * 24 * 60 * 60 * 1000
  else now + 24 * 60 * 60 * 1000

/-- The externally persisted key-value store, restricted to what the sweep
touches: one `MonitorConfig` per monitor id. -/
abbrev MonitorStore := String → Option MonitorConfig

/-- The write `store.setValue(monitorId, monitorConfig)`. -/
def updateStore (st : MonitorStore) (key : String) (v : MonitorConfig) : MonitorStore :=
  fun k => if k = key then some v else st k

/-- State threaded through the sweep of `processAllMonitors`: the store plus
the `processedCount`/`updatedCount` counters. -/
structure SweepState where
  store : MonitorStore
  processed : Nat
  updated : Nat

/-- Whether a per-monitor poll (search, parse, notify) succeeded.  The poll is
the one awaited long-latency operation of a monitor's cycle; its failure is
the per-monitor `catch`ed error. -/
def pollSucceeds {α : Type} : Except String α → Bool
  | .ok _ => true
  | .error _ => false

/-- One iteration of the `for (const monitorId of monitorsList)` loop of
`processAllMonitors`: skip a missing config, skip an ineligible monitor, on a
caught poll error change nothing, and on success count it, count a non-empty
novelty diff, and persist the updated config
(`lastChecked`/`lastResults`/`nextRun`). -/
def sweepStep (poll : MonitorConfig → Except String (ExtractionResult Listing))
    (now : Int) (st : SweepState) (mid : String) : SweepState :=
  match st.store mid with
  | none => st
  | some cfg =>
    if shouldRunMonitor cfg now then
      match poll cfg with
      | .error _ => st
      | .ok res =>
        let previousListings :=
          match cfg.lastResults with
          | some r => r.listings
          | none => []
        let newListings := findNewListings res.listings previousListings
        let updatedCfg := { cfg with
          lastChecked := some now
          lastResults := some res
          nextRun := some (getNextRunTime cfg.frequency now) }
        { store := updateStore st.store mid updatedCfg
          processed := st.processed + 1
          updated := if 0 < newListings.length then st.updated + 1 else st.updated }
    else st

/-- Function `processAllMonitors()`: fold the per-monitor step over the `monitors-list`
entry of the store, starting from zeroed counters. -/
def processAllMonitorsModel (monitorsList : List String) (store0 : MonitorStore)
    (poll : MonitorConfig → Except String (ExtractionResult Listing)) (now : Int) : SweepState :=
  monitorsList.foldl (sweepStep poll now) ⟨store0, 0, 0⟩

/-- C8's spec-side predicate: this iteration's monitor exists, is eligible,
and its poll succeeds (what `processed` is claimed to count). -/
def stepEligibleOk (poll : MonitorConfig → Except String (ExtractionResult Listing))
    (now : Int) (st : SweepState) (mid : String) : Bool :=
  match st.store mid with
  | none => false
  | some cfg => shouldRunMonitor cfg now && pollSucceeds (poll cfg)

/-- C8's spec-side predicate: this iteration's monitor is counted by
`processed` and its novelty diff is non-empty (what `updated` is claimed to
count). -/
def stepNewFound (poll : MonitorConfig → Except String (ExtractionResult Listing))
    (now : Int) (st : SweepState) (mid : String) : Bool :=
  match st.store mid with
  | none => false
  | some cfg =>
    shouldRunMonitor cfg now &&
      match poll cfg with
      | .error _ => false
      | .ok res =>
        let previousListings :=
          match cfg.lastResults with
          | some r => r.listings
          | none => []
        !(findNewListings res.listings previousListings).isEmpty

/-- The five independently matched token lists of
`processDocumentWithPatterns`: results of `matchAll` of the price, address,
bedroom, bathroom and square-footage patterns over the rendered text. -/
structure PatternTokens where
  prices : List String
  addresses : List String
  bedroomTokens : List String
  bathroomTokens : List String
  sqftTokens : List String
deriving DecidableEq

/-- The listing-building loop of `processDocumentWithPatterns`:
`maxEntries = Math.min(prices.length, Math.max(addresses.length, 10),
Math.max(bedrooms.length, 10), Math.max(bathrooms.length, 10),
Math.max(sqfts.length, 10))` listings, each position taking the i-th token of
every list and a placeholder beyond a list's length. -/
def buildPatternListings (source : String) (tk : PatternTokens) : List Listing :=
  let maxEntries :=
    min tk.prices.length
      (min (max tk.addresses.length 10)
        (min (max tk.bedroomTokens.length 10)
          (min (max tk.bathroomTokens.length 10) (max tk.sqftTokens.length 10))))
  (List.range maxEntries).map (fun i =>
    { title := "Property in " ++ (if source = "" then "listed area" else source)
      price := tk.prices.getD i "Price not specified"
      address := tk.addresses.getD i "Address not specified"
      details :=
        { bedrooms := tk.bedroomTokens.getD i "Not specified"
          bathrooms := tk.bathroomTokens.getD i "Not specified"
          squareFeet := tk.sqftTokens.getD i "Not specified" }
      description := "Property extracted from "
        ++ (if source = "" then "real estate website" else source)
        ++ " using pattern matching."
      url := ""
      source := (if source = "" then "real-estate-site" else source) ++ " (pattern extraction)" })

/-- Function `processDocumentWithPatterns(content, source)`: run the regex engine
(`rt`, the builtin `matchAll` applied to the repository's five patterns) over
the text and build the positional-zip listings. -/
def processDocumentWithPatterns (rt : String → PatternTokens) (content source : String) :
    ExtractionResult Listing :=
  let listings := buildPatternListings source (rt content)
  { count := listings.length
    listings := listings
    note := some "Results extracted using pattern matching" }

/-- The `catch` branch of `processDocumentWithPatterns` (reachable only via
JavaScript dynamism, e.g. a non-string `content`). -/
def patternFailure (msg : String) : ExtractionResult Listing :=
  { count := 0, listings := [], error := some ("Pattern matching extraction failed: " ++ msg) }

/-- The `catch` branch of `processRealEstateListings`. -/
def processRealEstateListingsFailure (msg : String) : ExtractionResult RawListing :=
  { count := 0, listings := [], error := some msg }

/-- Function `processRealEstateListings(items, source)` (tier-1 mapping): map every
upstream item into the common listing shape, resolving each logical field
through its `||`-chain of synonym keys. -/
def processRealEstateListings (items : List Json) (source : String) :
    ExtractionResult RawListing :=
  let listings := items.map (fun item =>
    ({ title := jsOr (jsGet item "name") (jsOr (jsGet item "address") (.str "Property Listing"))
       price := jsOr (jsGet item "price") (jsOr (jsGet item "listPrice") (.str "Price not specified"))
       address := jsOr (jsGet item "address") (jsOr (jsGet item "streetAddress") (.str "Address not specified"))
       details :=
         { bedrooms := jsOr (jsGet item "bedrooms") (jsOr (jsGet item "beds") (.str "Not specified"))
           bathrooms := jsOr (jsGet item "bathrooms") (jsOr (jsGet item "baths") (.str "Not specified"))
           squareFeet := jsOr (jsGet item "livingArea") (jsOr (jsGet item "sqft") (.str "Not specified")) }
       description := jsOr (jsGet item "description") (.str "")
       url := jsOr (jsGet item "detailUrl") (jsOr (jsGet item "url") (.str ""))
       source := source
       imageUrl := jsOr (jsGet item "imgSrc") (jsOr (jsGet item "imageUrl") (.str ""))
       listingAgent := jsOr (jsGet item "brokerName") (jsOr (jsGet item "agent") (.str "Not specified"))
       listingStatus := jsOr (jsGet item "homeStatus") (jsOr (jsGet item "status") (.str "For Sale")) } : RawListing))
  { count := listings.length, listings := listings }

/-- Whether `pat` is a prefix of `l` (character lists). -/
def startsWithChars : List Char → List Char → Bool
  | [], _ => true
  | _ :: _, [] => false
  | p :: ps, c :: cs => p == c && startsWithChars ps cs

/-- Whether `pat` is a suffix of `l` (character lists). -/
def endsWithChars (pat l : List Char) : Bool :=
  startsWithChars pat.reverse l.reverse

/-- Whether `needle` occurs as a contiguous substring of `hay`
(character lists). -/
def containsSub (hay needle : List Char) : Bool :=
  match hay with
  | [] => needle.isEmpty
  | _ :: t => startsWithChars needle hay || containsSub t needle

/-- Whether `needle` occurs as a contiguous substring of `hay` (strings). -/
def strContains (hay needle : String) : Bool :=
  containsSub hay.data needle.data

/-- Split at the FIRST occurrence of `sep`: `some (before, after)` when `sep`
occurs, `none` otherwise. -/
def splitAtFirst (sep : List Char) : List Char → Option (List Char × List Char)
  | [] => if sep.isEmpty then some ([], []) else none
  | c :: rest =>
    if startsWithChars sep (c :: rest) then some ([], (c :: rest).drop sep.length)
    else
      match splitAtFirst sep rest with
      | some (pre, post) => some (c :: pre, post)
      | none => none

/-- The fenced-code-block regex of `processLLMResponse`: the capture of the
first match, i.e. the text between the first "```json\n" and the first
"\n```" after it (`None` when no such pair exists, in which case the regex
does not match anywhere). -/
def extractFenced (s : String) : Option String :=
  match splitAtFirst ("```json\n").data s.data with
  | none => none
  | some (_, after) =>
    match splitAtFirst ("\n```").data after with
    | none => none
    | some (content, _) => some (String.mk content)

/-- JavaScript `\s` on the character classes our inputs use. -/
def isJsWs (c : Char) : Bool :=
  c == ' ' || c == '\t' || c == '\n' || c == '\r'

/-- After the opening quote of the bare-array regex, consume the lazy
`.*?"\s*:` remainder: content up to the first '"' that is followed by
whitespace and ':'; the returned characters are the consumed part of the
match (content, quote, whitespace, colon). -/
def bareCloseScan (acc : List Char) : List Char → Option (List Char)
  | [] => none
  | c :: rest =>
    if c == '\"' then
      let ws := rest.takeWhile isJsWs
      match rest.dropWhile isJsWs with
      | ':' :: _ => some (acc.reverse ++ [c] ++ ws ++ [':'])
      | _ => bareCloseScan (c :: acc) rest
    else bareCloseScan (c :: acc) rest

/-- Try the bare-array regex `\[\s*\{\s*".*?"\s*:` (with the `s` flag) at the
head of `l`, returning the matched characters. -/
def matchBareAt (l : List Char) : Option (List Char) :=
  match l with
  | '[' :: r1 =>
    let ws1 := r1.takeWhile isJsWs
    match r1.dropWhile isJsWs with
    | '\x7b' :: r3 =>
      let ws2 := r3.takeWhile isJsWs
      match r3.dropWhile isJsWs with
      | '\"' :: r5 =>
        match bareCloseScan [] r5 with
        | some consumed => some ('[' :: ws1 ++ '\x7b' :: ws2 ++ '\"' :: consumed)
        | none => none
      | _ => none
    | _ => none
  | _ => none

/-- Leftmost match of the bare-array regex over the whole text. -/
def firstBareMatch : List Char → Option (List Char)
  | [] => none
  | c :: rest =>
    match matchBareAt (c :: rest) with
    | some m => some m
    | none => firstBareMatch rest

/-- The match `responseText.match` of the bare-array pattern, as a string: the leftmost
matched substring, when any. -/
def bareMatchString (s : String) : Option String :=
  (firstBareMatch s.data).map String.mk

/-- The selection `jsonMatch[1] || jsonMatch[0]` after
`responseText.match(fenced) || responseText.match(bare)`: prefer the fenced
block's capture (falling back to the whole fenced match when the capture is
the empty string, which is falsy), else the bare match. -/
def llmJsonCandidate (s : String) : Option String :=
  match extractFenced s with
  | some f => some (if f = "" then "```json\n" ++ f ++ "\n```" else f)
  | none => bareMatchString s

/-- The clean-up step of `processLLMResponse`: append ']' when the candidate
starts with '[' but does not end with ']'. -/
def adjustJsonText (t : String) : String :=
  if startsWithChars ("[").data t.data && !(endsWithChars ("]").data t.data) then t ++ "]"
  else t

/-- The per-item field mapping of `processLLMResponse`, synonym keys resolved
first-present(-truthy)-wins, provenance tagged with the model used. -/
def formatLLMItem (source modelUsed : String) (item : Json) : LLMListing :=
  { title := jsOr (jsGet item "title") (jsOr (jsGet item "address") (.str "Property Listing"))
    price := jsOr (jsGet item "price") (.str "Price not specified")
    address := jsOr (jsGet item "address") (.str "Address not specified")
    details :=
      { bedrooms := jsOr (jsGet item "bedrooms") (jsOr (jsGet item "beds") (.str "Not specified"))
        bathrooms := jsOr (jsGet item "bathrooms") (jsOr (jsGet item "baths") (.str "Not specified"))
        squareFeet := jsOr (jsGet item "squareFeet")
          (jsOr (jsGet item "sqft") (jsOr (jsGet item "area") (.str "Not specified"))) }
    description := jsOr (jsGet item "description") (.str "")
    url := jsOr (jsGet item "url") (jsOr (jsGet item "link") (.str ""))
    source := (if source = "" then "real-estate-site" else source)
      ++ " (" ++ modelUsed ++ " extraction)" }

/-- Function `processLLMResponse(responseText, source, modelUsed)`: select the JSON
candidate (fenced block first, bare array second; no candidate means `null`),
clean it up, `JSON.parse` it (`jp` is the builtin parser; a parse error means
`null`), wrap a non-array result into a one-element array, and map every item
into the common shape. -/
def processLLMResponse (jp : String → Option Json) (responseText source modelUsed : String) :
    Option (ExtractionResult LLMListing) :=
  match llmJsonCandidate responseText with
  | none => none
  | some t =>
    match jp (adjustJsonText t) with
    | none => none
    | some v =>
      let parsedListings :=
        match v with
        | .arr xs => xs
        | j => [j]
      let formattedListings := parsedListings.map (formatLLMItem source modelUsed)
      some { count := formattedListings.length
             listings := formattedListings
             note := some ("Results extracted using Puppeteer and " ++ modelUsed ++ " processing") }

/-- What `simpleScrapingFallback` reads off one cheerio property-card element:
the first anchor's text, the first price-pattern match over the card's text,
and the first anchor's `href` (the DOM traversal and the builtin regex are
the abstracted parts; the field defaults and URL absolutization below are the
repository's logic). -/
structure Card where
  linkText : String
  priceTok : Option String
  href : Option String
deriving DecidableEq

/-- The per-card mapping of `simpleScrapingFallback`. -/
def mapSimpleCard (source : String) (c : Card) : Listing :=
  { title := if c.linkText.trim = "" then "Property Listing" else c.linkText.trim
    price := c.priceTok.getD "Price not specified"
    address := "Address extraction requires more detailed parsing"
    details :=
      { bedrooms := "Not specified in simple parsing"
        bathrooms := "Not specified in simple parsing"
        squareFeet := "Not specified in simple parsing" }
    description := "Limited information available from simple parsing"
    url :=
      match c.href with
      | none => ""
      | some rel => if startsWithChars ("http").data rel.data then rel
                    else "https://" ++ source ++ ".com" ++ rel
    source := source ++ " (simple parsing fallback)" }

/-- Builtin `encodeURIComponent`, a platform builtin, modelled as the identity (its
output never feeds back into the repository's logic — it only builds URLs
handed to abstract collaborators). -/
def encodeURIComponent (s : String) : String := s

/-- The rendering `URLSearchParams.toString()` over appended pairs. -/
def urlParams (ps : List (String × String)) : String :=
  String.intercalate "&" (ps.map (fun p => p.1 ++ "=" ++ p.2))

/-- One conditional `params.append(name, v)` (`if (v)` truthiness). -/
def condParam (name : String) (v : Option Int) : List (String × String) :=
  if optTruthy v then [(name, toString (v.getD 0))] else []

/-- The search URL of `fallbackToPuppeteerWebBaseLoader`'s source switch. -/
def fallbackSearchUrl (c : Criteria) : String :=
  if c.source = "zillow" then
    "https://www.zillow.com/homes/" ++ encodeURIComponent c.location ++ "_rb/?"
      ++ urlParams (condParam "price_min" c.minPrice ++ condParam "price_max" c.maxPrice
        ++ condParam "beds_min" c.bedrooms ++ condParam "baths_min" c.bathrooms)
  else if c.source = "realtor" then
    "https://www.realtor.com/realestateandhomes-search/" ++ encodeURIComponent c.location ++ "?"
      ++ urlParams (condParam "price_min" c.minPrice ++ condParam "price_max" c.maxPrice
        ++ condParam "beds_min" c.bedrooms ++ condParam "baths_min" c.bathrooms)
  else if c.source = "redfin" then
    "https://www.redfin.com/city/" ++ encodeURIComponent c.location
  else
    "https://www.zillow.com/homes/" ++ encodeURIComponent c.location ++ "_rb/?"
      ++ urlParams (condParam "price_min" c.minPrice ++ condParam "price_max" c.maxPrice
        ++ condParam "beds_min" c.bedrooms ++ condParam "baths_min" c.bathrooms)

/-- The URL of `simpleScrapingFallback`'s source switch. -/
def simpleUrl (c : Criteria) : String :=
  if c.source = "zillow" then
    "https://www.zillow.com/homes/" ++ encodeURIComponent c.location ++ "_rb/"
  else if c.source = "realtor" then
    "https://www.realtor.com/realestateandhomes-search/" ++ encodeURIComponent c.location
  else if c.source = "redfin" then
    "https://www.redfin.com/city/" ++ encodeURIComponent c.location
  else
    "https://www.zillow.com/homes/" ++ encodeURIComponent c.location ++ "_rb/"

/-- The property-card selector of `simpleScrapingFallback`'s source switch. -/
def selectorFor (source : String) : String :=
  if source = "zillow" then "article[data-test=\"property-card\"]"
  else if source = "realtor" then "div[data-testid=\"property-card\"]"
  else if source = "redfin" then "div.HomeCard"
  else "article[data-test=\"property-card\"]"

/-- The `maxcopell`/`dtrungtin`/`scrapestorm` actor chosen by the tool's
source switch. -/
def actorId (source : String) : String :=
  if source = "zillow" then "maxcopell/zillow-scraper"
  else if source = "redfin" then "dtrungtin/redfin-scraper"
  else if source = "realtor" then "dtrungtin/realtor-scraper"
  else "scrapestorm/zillow-search-scraper-all-in-one"

/-- An `undefined`-aware embedding of an optional number into an input object. -/
def jsonOfOptInt : Option Int → Json
  | some n => .num n
  | none => .undefined

/-- The actor input built by the tool's source switch. -/
def actorInput (c : Criteria) : Json :=
  if c.source = "zillow" then
    let filters0 : List (String × Json) :=
      [("isForSale", .bool true),
       ("price", .obj [("min", jsonOfOptInt c.minPrice), ("max", jsonOfOptInt c.maxPrice)])]
    let filters1 :=
      if optTruthy c.bedrooms then filters0 ++ [("beds", .obj [("min", jsonOfOptInt c.bedrooms)])]
      else filters0
    let filters2 :=
      if optTruthy c.bathrooms then filters1 ++ [("baths", .obj [("min", jsonOfOptInt c.bathrooms)])]
      else filters1
    let filters3 :=
      if c.propertyType != "" && c.propertyType != "any" then
        filters2 ++ [("homeType", .arr [.str c.propertyType.toUpper])]
      else filters2
    .obj [("searchTerms", .arr [.str c.location]), ("filters", .obj filters3),
          ("maxItems", .num c.maxResults)]
  else if c.source = "redfin" then
    .obj [("startUrls", .arr [.obj [("url", .str ("https://www.redfin.com/city/" ++ encodeURIComponent c.location))]]),
          ("maxItems", .num c.maxResults),
          ("includeFilters", .bool true),
          ("filters", .obj [("minPrice", jsonOfOptInt c.minPrice), ("maxPrice", jsonOfOptInt c.maxPrice),
                            ("minBeds", jsonOfOptInt c.bedrooms), ("minBaths", jsonOfOptInt c.bathrooms)])]
  else if c.source = "realtor" then
    .obj [("search", .str c.location),
          ("maxItems", .num c.maxResults),
          ("filters", .obj [("minPrice", jsonOfOptInt c.minPrice), ("maxPrice", jsonOfOptInt c.maxPrice),
                            ("minBeds", jsonOfOptInt c.bedrooms), ("minBaths", jsonOfOptInt c.bathrooms)])]
  else
    .obj [("searchTerms", .arr [.str c.location]),
          ("filters", .obj [("minPrice", jsonOfOptInt c.minPrice), ("maxPrice", jsonOfOptInt c.maxPrice),
                            ("beds", jsonOfOptInt c.bedrooms), ("baths", jsonOfOptInt c.bathrooms),
                            ("homeType", if c.propertyType != "any" then .arr [.str c.propertyType.toUpper] else .undefined)]),
          ("maxItems", .num c.maxResults)]

/-- The criteria sentence interpolated into the LLM prompt
(`[...].filter(Boolean).join(', ')`). -/
def llmCriteriaString (c : Criteria) : String :=
  String.intercalate ", "
    (([if optTruthy c.minPrice then "Minimum price: $" ++ toString (c.minPrice.getD 0) else "",
       if optTruthy c.maxPrice then "Maximum price: $" ++ toString (c.maxPrice.getD 0) else "",
       if c.propertyType != "" && c.propertyType != "any" then "Property type: " ++ c.propertyType else "",
       if optTruthy c.bedrooms then "Minimum bedrooms: " ++ toString (c.bedrooms.getD 0) else "",
       if optTruthy c.bathrooms then "Minimum bathrooms: " ++ toString (c.bathrooms.getD 0) else ""]).filter
      (fun s => s != ""))

/-- The extraction prompt of `extractListingsWithLLM` (first 12000 characters
of the rendered text are inlined). -/
def llmPrompt (content : String) (c : Criteria) : String :=
  "\n        Extract real estate listings from the following webpage content. \n"
    ++ "        Search criteria: " ++ llmCriteriaString c ++ "\n        \n"
    ++ "        For each property listing, extract:\n"
    ++ "        1. Property address\n        2. Price\n        3. Number of bedrooms\n"
    ++ "        4. Number of bathrooms\n        5. Square footage\n"
    ++ "        6. URL of the listing (if available)\n        \n"
    ++ "        Output the results as a JSON array of property objects with fields: \n"
    ++ "        title, address, price, bedrooms, bathrooms, squareFeet, description, url.\n"
    ++ "        \n        Webpage content:\n        " ++ content.take 12000 ++ "\n        "

/-- The external collaborators of the pipeline, as narrow interfaces:
`upstream` is `Actor.call` plus the dataset fetch (actor id and input to
items), `render` is the Puppeteer loader (URL to the pageContents of the
loaded documents), `llm` is the OpenAI chat call (prompt to response text),
`httpCards` is axios plus the cheerio selector scan (URL and selector to the
per-card reads), `jp` is the builtin `JSON.parse` (failure as `none`), and
`rt` is the builtin regex engine applied to the five fixed patterns of
`processDocumentWithPatterns`. -/
structure Collabs where
  upstream : String → Json → Except String (List Json)
  render : String → Except String (List String)
  llm : String → Except String String
  httpCards : String → String → Except String (List Card)
  jp : String → Option Json
  rt : String → PatternTokens

/-- Invocation events of the long-latency collaborators, used to state which
tiers a run touched. -/
inductive Ev where
  | upstreamCall : Ev
  | renderCall : Ev
  | llmCall : Ev
  | httpCall : Ev
deriving DecidableEq

/-- The serialized result returned by the tool, by producing code path (the
JavaScript function returns the JSON serialization of one of these shapes). -/
inductive SearchOutcome where
  | specialized : ExtractionResult RawListing → SearchOutcome
  | llmExtracted : ExtractionResult LLMListing → SearchOutcome
  | patterned : ExtractionResult Listing → SearchOutcome
  | simple : ExtractionResult Listing → SearchOutcome
  | failed : ExtractionResult Listing → SearchOutcome

/-- C2's invariant on whichever shape a run returned. -/
def outcomeCountEqLen : SearchOutcome → Prop
  | .specialized r => countEqLen r
  | .llmExtracted r => countEqLen r
  | .patterned r => countEqLen r
  | .simple r => countEqLen r
  | .failed r => countEqLen r

/-- Function `simpleScrapingFallback`: plain HTTP GET plus cheerio card scan; its own
`catch` converts any failure into a `count = 0` result whose error quotes only
this tier's failure message. -/
def simpleScrapingFallback (c : Criteria) (k : Collabs) : ExtractionResult Listing :=
  match k.httpCards (simpleUrl c) (selectorFor c.source) with
  | .error e =>
    { count := 0, listings := [], error := some ("Simple scraping fallback failed: " ++ e) }
  | .ok cards =>
    let listings := cards.map (mapSimpleCard c.source)
    { count := listings.length
      listings := listings
      note := some "Results from simple parsing fallback may be limited in detail" }

/-- The dead outer `catch` of `fallbackToPuppeteerWebBaseLoader` (lines
435-439): the terminal result concatenating the tier-2 and tier-5 messages.
It is built only when `simpleScrapingFallback` itself throws past its own
`catch`, which its body prevents. -/
def bothFailedResult (e2 e5 : String) : ExtractionResult Listing :=
  { count := 0, listings := []
    error := some ("Both Puppeteer and simple scraping failed. Original error: " ++ e2
      ++ ". Fallback error: " ++ e5) }

/-- Function `extractListingsWithLLM(content, criteria, source)`: one model call, the
response parsed by `processLLMResponse` with `modelUsed = "OpenAI"`; any model
error is caught and yields `null`. -/
def extractListingsWithLLM (c : Criteria) (k : Collabs) (content : String) :
    Option (ExtractionResult LLMListing) :=
  match k.llm (llmPrompt content c) with
  | .error _ => none
  | .ok text => processLLMResponse k.jp text c.source "OpenAI"

/-- Function `fallbackToPuppeteerWebBaseLoader`: render the search URL; with rendered
text, try model extraction then pattern extraction; when the render fails (or
loads no documents), the `catch` runs `simpleScrapingFallback`, whose result
is returned as-is (the concatenating branch `bothFailedResult` is dead).
`ev0` is the invocation trace accumulated before this tier. -/
def fallbackToPuppeteerWebBaseLoader (c : Criteria) (k : Collabs) (ev0 : List Ev) :
    SearchOutcome × List Ev :=
  match k.render (fallbackSearchUrl c) with
  | .error _ => (.simple (simpleScrapingFallback c k), ev0 ++ [.renderCall, .httpCall])
  | .ok [] => (.simple (simpleScrapingFallback c k), ev0 ++ [.renderCall, .httpCall])
  | .ok (doc :: _) =>
    match extractListingsWithLLM c k doc with
    | some r =>
      if r.count > 0 then (.llmExtracted r, ev0 ++ [.renderCall, .llmCall])
      else (.patterned (processDocumentWithPatterns k.rt doc c.source), ev0 ++ [.renderCall, .llmCall])
    | none => (.patterned (processDocumentWithPatterns k.rt doc c.source), ev0 ++ [.renderCall, .llmCall])

/-- The tool's `func`: with `forceFallback` skip the Apify actors entirely;
otherwise call the selected actor and map its items, falling back on any
actor failure.  The second component is the trace of long-latency
collaborator invocations, in order. -/
def searchRealEstate (c : Criteria) (k : Collabs) : SearchOutcome × List Ev :=
  if c.forceFallback then fallbackToPuppeteerWebBaseLoader c k []
  else
    match k.upstream (actorId c.source) (actorInput c) with
    | .ok items => (.specialized (processRealEstateListings items c.source), [.upstreamCall])
    | .error _ => fallbackToPuppeteerWebBaseLoader c k [.upstreamCall]

/-- A listing with an empty `url`, exactly as the pattern tier produces
(position 0 of a one-price token list). -/
def emptyUrlListing : Listing :=
  { title := "Property in zillow"
    price := "$100,000"
    address := "1 A St"
    details := { bedrooms := "2", bathrooms := "1", squareFeet := "900" }
    description := "Property extracted from zillow using pattern matching."
    url := ""
    source := "zillow (pattern extraction)" }

/-- Concrete criteria with `forceFallback` set. -/
def cexCriteria : Criteria :=
  { location := "Seattle, WA"
    minPrice := some 700000
    maxPrice := some 1200000
    propertyType := "any"
    bedrooms := none
    bathrooms := none
    maxResults := 10
    source := "zillow"
    forceFallback := true }

/-- Collaborators that all fail, with distinguishable messages. -/
def failingCollabs : Collabs :=
  { upstream := fun _ _ => .error "UPSTREAM_DOWN"
    render := fun _ => .error "RENDER_DOWN"
    llm := fun _ => .error "LLM_DOWN"
    httpCards := fun _ _ => .error "HTTP_DOWN"
    jp := fun _ => none
    rt := fun _ => ⟨[], [], [], [], []⟩ }

/-- A model response carrying one listing in a fenced JSON block. -/
def llmResponseSample : String := "```json\n[\x7b\"title\": \"Casa\"\x7d]\n```"

/-- Builtin `JSON.parse` evaluated at the one string the sample run feeds it
(consistent with real JSON semantics there). -/
def toyParse (t : String) : Option Json :=
  if t = "[\x7b\"title\": \"Casa\"\x7d]" then some (.arr [.obj [("title", .str "Casa")]])
  else none

/-- Concrete token lists: 3 price tokens, 5 address tokens, 0 bedroom tokens. -/
def tk3 : PatternTokens :=
  { prices := ["$100,000", "$200,000", "$300,000"]
    addresses := ["1 A St", "2 B St", "3 C St", "4 D St", "5 E St"]
    bedroomTokens := []
    bathroomTokens := ["2"]
    sqftTokens := ["1,500"] }

/-- Concrete token lists with a single price token. -/
def tkW : PatternTokens :=
  { prices := ["$50,000"], addresses := [], bedroomTokens := [], bathroomTokens := [], sqftTokens := [] }

/-- The listing `buildPatternListings "zillow" tkW` generates at position 0. -/
def wPatternListing : Listing :=
  { title := "Property in zillow"
    price := "$50,000"
    address := "Address not specified"
    details := { bedrooms := "Not specified", bathrooms := "Not specified", squareFeet := "Not specified" }
    description := "Property extracted from zillow using pattern matching."
    url := ""
    source := "zillow (pattern extraction)" }

/-- Concrete monitor criteria. -/
def wCriteria : Criteria :=
  { location := "Austin"
    minPrice := none
    maxPrice := none
    propertyType := "any"
    bedrooms := none
    bathrooms := none
    maxResults := 20
    source := "any"
    forceFallback := false }

/-- A never-polled daily monitor that polls successfully. -/
def wCfgOk : MonitorConfig :=
  { id := "ok1", criteria := wCriteria, frequency := some "daily",
    lastChecked := none, lastResults := none }

/-- A never-polled daily monitor whose poll fails. -/
def wCfgBad : MonitorConfig :=
  { id := "bad", criteria := wCriteria, frequency := some "daily",
    lastChecked := none, lastResults := none }

/-- A store holding the two concrete monitors. -/
def wStore : MonitorStore :=
  fun k => if k = "bad" then some wCfgBad else if k = "ok1" then some wCfgOk else none

/-- One concrete search hit. -/
def wListing : Listing :=
  { title := "t", price := "$1", address := "a"
    details := { bedrooms := "1", bathrooms := "1", squareFeet := "100" }
    description := "", url := "https://x", source := "any" }

/-- A successful poll result carrying `wListing`. -/
def wResult : ExtractionResult Listing := { count := 1, listings := [wListing] }

/-- A poll that fails on monitor `bad` and succeeds elsewhere. -/
def wPoll : MonitorConfig → Except String (ExtractionResult Listing) :=
  fun cfg => if cfg.id = "bad" then .error "boom" else .ok wResult

theorem mem_urlSet (prev : List Listing) (u : String) :
    ((prev.map (fun l => l.url)).contains u = true) ↔ ∃ p ∈ prev, p.url = u := by
  rw [List.elem_iff, List.mem_map]

/-- C3: `shouldRunMonitor` is true whenever `lastChecked` is null, and
otherwise is true exactly when the elapsed hours `(now - lastChecked)/3600000`
reach 0.25 for frequency `realtime`, 24 for `daily`, 168 for `weekly`, and 24
for any unknown or missing frequency — i.e. it agrees with the claim-side
`shouldRunSpec` at every config and time. -/
theorem shouldRunMonitor_matches_spec (cfg : MonitorConfig) (now : Int) :
    shouldRunMonitor cfg now = shouldRunSpec cfg now := by
  have h36 : ((1000 * 60 * 60 : ℚ)) = 3600000 := by norm_num
  unfold shouldRunMonitor shouldRunSpec thresholdHours
  cases cfg.lastChecked with
  | none => rfl
  | some t =>
    simp only [h36]
    split_ifs <;> rfl

/-- C1 counterexample: the code's novelty diff builds its URL set from ALL
previous urls, the empty string included, so when the previous poll contained
an empty-url listing, an empty-url current listing is dropped — while the
claim's diff (non-empty urls only, empty-url always kept) keeps it. -/
theorem findNew_claim_counterexample :
    findNewListings [emptyUrlListing] [emptyUrlListing] = []
    ∧ findNewSpecClaim [emptyUrlListing] [emptyUrlListing] = [emptyUrlListing]
    ∧ ([] : List Listing) ≠ [emptyUrlListing] := by
  refine ⟨by decide, by decide, by decide⟩

/-- C1 (amended): `findNewListings` returns all of `current` when `previous`
is empty or absent; otherwise it returns exactly the sublist of `current`, in
order, of listings whose `url` (empty or not) equals no `url` occurring in
`previous` — in particular an empty-url current listing is kept iff
`previous` contains no empty-url listing. -/
theorem findNew_matches_amended_spec (cur prev : List Listing) :
    findNewListings cur prev = findNewSpecAmended cur prev := by
  unfold findNewListings findNewSpecAmended
  by_cases h : prev.isEmpty
  · simp [h]
  · simp only [h, Bool.false_eq_true, if_false]
    apply List.filter_congr
    intro x _
    rw [Bool.eq_iff_iff]
    simp only [Bool.not_eq_true', ← Bool.not_eq_true, decide_eq_true_eq, mem_urlSet]
    push_neg
    rfl

/-- C4: the pattern sub-tier builds exactly
N = min(price count, max(address count, 10), max(bedroom count, 10),
max(bathroom count, 10), max(sqft count, 10)) listings from the matched token
lists, positionally zipping them and filling each position beyond a token
list's length with its placeholder; in particular 3 price tokens, 5 address
tokens and 0 bedroom tokens yield exactly 3 listings, each with bedrooms
"Not specified". -/
theorem pattern_zip_shape (rt : String → PatternTokens) (content source : String) :
    ((processDocumentWithPatterns rt content source).listings.length =
      min (rt content).prices.length
        (min (max (rt content).addresses.length 10)
          (min (max (rt content).bedroomTokens.length 10)
            (min (max (rt content).bathroomTokens.length 10)
              (max (rt content).sqftTokens.length 10)))))
    ∧ ((processDocumentWithPatterns rt content source).listings.map (fun l => l.price)
        = (List.range (processDocumentWithPatterns rt content source).listings.length).map
            (fun i => (rt content).prices.getD i "Price not specified"))
    ∧ ((processDocumentWithPatterns rt content source).listings.map (fun l => l.address)
        = (List.range (processDocumentWithPatterns rt content source).listings.length).map
            (fun i => (rt content).addresses.getD i "Address not specified"))
    ∧ ((processDocumentWithPatterns rt content source).listings.map (fun l => l.details.bedrooms)
        = (List.range (processDocumentWithPatterns rt content source).listings.length).map
            (fun i => (rt content).bedroomTokens.getD i "Not specified"))
    ∧ ((processDocumentWithPatterns rt content source).listings.map (fun l => l.details.bathrooms)
        = (List.range (processDocumentWithPatterns rt content source).listings.length).map
            (fun i => (rt content).bathroomTokens.getD i "Not specified"))
    ∧ ((processDocumentWithPatterns rt content source).listings.map (fun l => l.details.squareFeet)
        = (List.range (processDocumentWithPatterns rt content source).listings.length).map
            (fun i => (rt content).sqftTokens.getD i "Not specified"))
    ∧ ((buildPatternListings "zillow" tk3).length = 3
        ∧ (buildPatternListings "zillow" tk3).all
            (fun l => l.details.bedrooms == "Not specified") = true) := by
  refine ⟨?_, ?_, ?_, ?_, ?_, ?_, by decide, by decide⟩
  all_goals simp only [processDocumentWithPatterns, buildPatternListings, List.map_map,
    List.length_map, List.length_range]
  all_goals rfl

theorem countEqLen_specialized (items : List Json) (source : String) :
    countEqLen (processRealEstateListings items source) := rfl

theorem countEqLen_specializedFailure (msg : String) :
    countEqLen (processRealEstateListingsFailure msg) := rfl

theorem countEqLen_llm (jp : String → Option Json) (responseText source modelUsed : String) :
    optCountEqLen (processLLMResponse jp responseText source modelUsed) := by
  unfold processLLMResponse
  cases hc : llmJsonCandidate responseText with
  | none => trivial
  | some t =>
    dsimp only
    cases hp : jp (adjustJsonText t) with
    | none => trivial
    | some v => exact rfl

theorem countEqLen_llm_some (jp : String → Option Json) (s source mu : String)
    (r : ExtractionResult LLMListing) (h : processLLMResponse jp s source mu = some r) :
    countEqLen r := by
  have hinv := countEqLen_llm jp s source mu
  rw [h] at hinv
  exact hinv

theorem countEqLen_patterns (rt : String → PatternTokens) (content source : String) :
    countEqLen (processDocumentWithPatterns rt content source) := rfl

theorem countEqLen_patternFailure (msg : String) : countEqLen (patternFailure msg) := rfl

theorem countEqLen_simple (c : Criteria) (k : Collabs) :
    countEqLen (simpleScrapingFallback c k) := by
  unfold simpleScrapingFallback
  split <;> rfl

theorem countEqLen_bothFailed (e2 e5 : String) : countEqLen (bothFailedResult e2 e5) := rfl

theorem countEqLen_extractLLM (c : Criteria) (k : Collabs) (content : String)
    (r : ExtractionResult LLMListing) (h : extractListingsWithLLM c k content = some r) :
    countEqLen r := by
  unfold extractListingsWithLLM at h
  cases hl : k.llm (llmPrompt content c) with
  | error e => rw [hl] at h; exact absurd h (by simp)
  | ok text => rw [hl] at h; exact countEqLen_llm_some k.jp text c.source "OpenAI" r h

theorem countEqLen_fallback (c : Criteria) (k : Collabs) (ev0 : List Ev) :
    outcomeCountEqLen (fallbackToPuppeteerWebBaseLoader c k ev0).1 := by
  unfold fallbackToPuppeteerWebBaseLoader
  cases hr : k.render (fallbackSearchUrl c) with
  | error e => exact countEqLen_simple c k
  | ok docs =>
    cases docs with
    | nil => exact countEqLen_simple c k
    | cons doc rest =>
      dsimp only
      cases he : extractListingsWithLLM c k doc with
      | none => exact countEqLen_patterns k.rt doc c.source
      | some r =>
        dsimp only
        by_cases hcnt : r.count > 0
        · rw [if_pos hcnt]
          exact countEqLen_extractLLM c k doc r he
        · rw [if_neg hcnt]
          exact countEqLen_patterns k.rt doc c.source

theorem countEqLen_search (c : Criteria) (k : Collabs) :
    outcomeCountEqLen (searchRealEstate c k).1 := by
  unfold searchRealEstate
  by_cases hf : c.forceFallback = true
  · simp only [hf, if_true]
    exact countEqLen_fallback c k []
  · simp only [hf, if_false]
    cases hu : k.upstream (actorId c.source) (actorInput c) with
    | ok items => exact countEqLen_specialized items c.source
    | error e => exact countEqLen_fallback c k [Ev.upstreamCall]

/-- C2: every `ExtractionResult` any tier constructs — the tier-1
specialized-source mapping, the model-extraction parse, the
pattern-extraction build, the simple-parsing fallback, their error branches,
the dead concatenated-failure branch, and therefore whatever the whole search
run returns — has `count` equal to the length of its `listings`. -/
theorem extraction_count_invariant :
    (∀ (items : List Json) (source : String), countEqLen (processRealEstateListings items source))
    ∧ (∀ msg : String, countEqLen (processRealEstateListingsFailure msg))
    ∧ (∀ (jp : String → Option Json) (responseText source modelUsed : String),
        optCountEqLen (processLLMResponse jp responseText source modelUsed))
    ∧ (∀ (rt : String → PatternTokens) (content source : String),
        countEqLen (processDocumentWithPatterns rt content source))
    ∧ (∀ msg : String, countEqLen (patternFailure msg))
    ∧ (∀ (c : Criteria) (k : Collabs), countEqLen (simpleScrapingFallback c k))
    ∧ (∀ e2 e5 : String, countEqLen (bothFailedResult e2 e5))
    ∧ (∀ (c : Criteria) (k : Collabs), outcomeCountEqLen (searchRealEstate c k).1) :=
  ⟨countEqLen_specialized, countEqLen_specializedFailure, countEqLen_llm,
   countEqLen_patterns, countEqLen_patternFailure, countEqLen_simple,
   countEqLen_bothFailed, countEqLen_search⟩

/-- C5 (amended): when tier 1 is skipped or fails, the browser render fails,
and the simple-scraping HTTP fetch fails, `extract` returns (it is a total
function of the collaborator outcomes — no exception reaches the caller) an
ExtractionResult with `count = 0`, empty `listings`, and a non-empty `error`
string reporting the tier-5 failure ("Simple scraping fallback failed: ..."),
produced by `simpleScrapingFallback`'s own catch; the branch that would
concatenate the tier-2 and tier-5 messages is unreachable. -/
theorem all_tiers_fail_terminal (c : Criteria) (k : Collabs) (e2 e5 : String)
    (h1 : c.forceFallback = true
      ∨ ∃ e1, k.upstream (actorId c.source) (actorInput c) = Except.error e1)
    (h2 : k.render (fallbackSearchUrl c) = Except.error e2)
    (h3 : k.httpCards (simpleUrl c) (selectorFor c.source) = Except.error e5) :
    (searchRealEstate c k).1 =
      SearchOutcome.simple
        { count := 0, listings := []
          error := some ("Simple scraping fallback failed: " ++ e5) }
    ∧ ("Simple scraping fallback failed: " ++ e5) ≠ "" := by
  constructor
  · have hsimple : simpleScrapingFallback c k =
        { count := 0, listings := []
          error := some ("Simple scraping fallback failed: " ++ e5) } := by
      unfold simpleScrapingFallback
      rw [h3]
    have hfb : ∀ ev0, (fallbackToPuppeteerWebBaseLoader c k ev0).1 =
        SearchOutcome.simple
          { count := 0, listings := []
            error := some ("Simple scraping fallback failed: " ++ e5) } := by
      intro ev0
      unfold fallbackToPuppeteerWebBaseLoader
      rw [h2]
      dsimp only
      rw [hsimple]
    unfold searchRealEstate
    by_cases hf : c.forceFallback = true
    · rw [if_pos hf]
      exact hfb []
    · rw [if_neg hf]
      rcases h1 with hft | ⟨e1, he1⟩
      · exact absurd hft hf
      · rw [he1]
        exact hfb [Ev.upstreamCall]
  · intro h
    have hlen := congrArg String.length h
    rw [String.length_append] at hlen
    have h33 : ("Simple scraping fallback failed: ").length = 33 := rfl
    rw [h33] at hlen
    simp at hlen

/-- C5 witness: concrete criteria with `forceFallback` and concrete failing
collaborators. -/
theorem all_tiers_fail_witness :
    (cexCriteria.forceFallback = true
      ∨ ∃ e1, failingCollabs.upstream (actorId cexCriteria.source) (actorInput cexCriteria)
          = Except.error e1)
    ∧ failingCollabs.render (fallbackSearchUrl cexCriteria) = Except.error "RENDER_DOWN"
    ∧ failingCollabs.httpCards (simpleUrl cexCriteria) (selectorFor cexCriteria.source)
        = Except.error "HTTP_DOWN"
    ∧ (searchRealEstate cexCriteria failingCollabs).1 =
        SearchOutcome.simple
          { count := 0, listings := []
            error := some ("Simple scraping fallback failed: " ++ "HTTP_DOWN") } :=
  ⟨Or.inl rfl, rfl, rfl,
    (all_tiers_fail_terminal cexCriteria failingCollabs "RENDER_DOWN" "HTTP_DOWN"
      (Or.inl rfl) rfl rfl).1⟩

/-- C5 counterexample: when every tier fails, the returned error string
quotes only the tier-5 failure message — it does not contain the tier-2
(browser render) failure message, so it is not a concatenation of the two. -/
theorem all_tiers_fail_counterexample :
    (searchRealEstate cexCriteria failingCollabs).1 =
      SearchOutcome.simple
        { count := 0, listings := []
          error := some "Simple scraping fallback failed: HTTP_DOWN" }
    ∧ strContains "Simple scraping fallback failed: HTTP_DOWN" "RENDER_DOWN" = false := by
  constructor
  · rfl
  · decide

/-- C6: with `forceFallback` set, the upstream actor client is never invoked
(no `upstreamCall` event occurs in the run's collaborator trace) and the
first collaborator invoked is the tier-2 renderer. -/
theorem force_fallback_skips_upstream (c : Criteria) (k : Collabs)
    (h : c.forceFallback = true) :
    Ev.upstreamCall ∉ (searchRealEstate c k).2
    ∧ (searchRealEstate c k).2.head? = some Ev.renderCall := by
  have htr : (searchRealEstate c k).2 = (fallbackToPuppeteerWebBaseLoader c k []).2 := by
    unfold searchRealEstate
    rw [if_pos h]
  have key : ∀ ev0, (fallbackToPuppeteerWebBaseLoader c k ev0).2 = ev0 ++ [Ev.renderCall, Ev.httpCall]
      ∨ (fallbackToPuppeteerWebBaseLoader c k ev0).2 = ev0 ++ [Ev.renderCall, Ev.llmCall] := by
    intro ev0
    unfold fallbackToPuppeteerWebBaseLoader
    cases hr : k.render (fallbackSearchUrl c) with
    | error e => left; rfl
    | ok docs =>
      cases docs with
      | nil => left; rfl
      | cons doc rest =>
        dsimp only
        cases he : extractListingsWithLLM c k doc with
        | none => right; rfl
        | some r =>
          dsimp only
          right
          by_cases hcnt : r.count > 0
          · rw [if_pos hcnt]
          · rw [if_neg hcnt]
  rw [htr]
  rcases key [] with hk | hk <;> rw [hk] <;> exact ⟨by decide, by decide⟩

/-- C6 witness: the concrete `forceFallback` run touches no upstream client. -/
theorem force_fallback_witness :
    cexCriteria.forceFallback = true
    ∧ Ev.upstreamCall ∉ (searchRealEstate cexCriteria failingCollabs).2
    ∧ (searchRealEstate cexCriteria failingCollabs).2.head? = some Ev.renderCall :=
  ⟨rfl, (force_fallback_skips_upstream cexCriteria failingCollabs rfl).1,
    (force_fallback_skips_upstream cexCriteria failingCollabs rfl).2⟩

theorem shouldRunMonitor_mono (cfg : MonitorConfig) (n1 n2 : Int) (h12 : n1 ≤ n2)
    (h : shouldRunMonitor cfg n1 = true) : shouldRunMonitor cfg n2 = true := by
  unfold shouldRunMonitor at h ⊢
  cases hlc : cfg.lastChecked with
  | none => rfl
  | some t =>
    rw [hlc] at h
    dsimp only at h ⊢
    have key : ((n1 - t : ℤ) : ℚ) / (1000 * 60 * 60) ≤ ((n2 - t : ℤ) : ℚ) / (1000 * 60 * 60) := by
      have hle : ((n1 - t : ℤ) : ℚ) ≤ ((n2 - t : ℤ) : ℚ) := by
        exact_mod_cast sub_le_sub_right h12 t
      exact (div_le_div_iff_of_pos_right (by norm_num)).mpr hle
    split_ifs at h ⊢ <;>
      · simp only [decide_eq_true_eq] at h ⊢
        linarith

/-- C7: for an eligible monitor, a successful poll persists
`lastChecked = now`, `lastResults = ` the poll's ExtractionResult, and
`nextRun = now` plus 15 minutes (`realtime`), 1 day (`daily`), or 7 days
(`weekly`); whereas a failing poll leaves the sweep state (store and
counters) completely unchanged, and the monitor stays eligible at every
later time. -/
theorem monitor_persist_or_skip
    (poll : MonitorConfig → Except String (ExtractionResult Listing))
    (now : Int) (st : SweepState) (mid : String) (cfg : MonitorConfig)
    (hcfg : st.store mid = some cfg) (helig : shouldRunMonitor cfg now = true) :
    (∀ res, poll cfg = Except.ok res →
      (sweepStep poll now st mid).store mid =
        some { cfg with lastChecked := some now, lastResults := some res,
                        nextRun := some (getNextRunTime cfg.frequency now) }
      ∧ (cfg.frequency = some "realtime" → getNextRunTime cfg.frequency now = now + 900000)
      ∧ (cfg.frequency = some "daily" → getNextRunTime cfg.frequency now = now + 86400000)
      ∧ (cfg.frequency = some "weekly" → getNextRunTime cfg.frequency now = now + 604800000))
    ∧ (∀ e, poll cfg = Except.error e →
      sweepStep poll now st mid = st
      ∧ ∀ now2, now ≤ now2 → shouldRunMonitor cfg now2 = true) := by
  constructor
  · intro res hres
    refine ⟨?_, ?_, ?_, ?_⟩
    · unfold sweepStep
      rw [hcfg]
      dsimp only
      rw [if_pos helig, hres]
      dsimp only
      unfold updateStore
      rw [if_pos rfl]
    · intro hf
      unfold getNextRunTime
      rw [if_pos hf]
      norm_num
    · intro hf
      unfold getNextRunTime
      rw [if_neg (by rw [hf]; decide), if_pos hf]
      norm_num
    · intro hf
      unfold getNextRunTime
      rw [if_neg (by rw [hf]; decide), if_neg (by rw [hf]; decide), if_pos hf]
      norm_num
  · intro e he
    constructor
    · unfold sweepStep
      rw [hcfg]
      dsimp only
      rw [if_pos helig, he]
    · intro now2 h2
      exact shouldRunMonitor_mono cfg now now2 h2 helig

/-- C7 witness: a concrete never-checked daily monitor polled successfully at
time 5 is persisted with the new `lastChecked`/`lastResults`/`nextRun`. -/
theorem monitor_persist_witness :
    wStore "ok1" = some wCfgOk
    ∧ shouldRunMonitor wCfgOk 5 = true
    ∧ wPoll wCfgOk = Except.ok wResult
    ∧ (sweepStep wPoll 5 ⟨wStore, 0, 0⟩ "ok1").store "ok1" =
        some { wCfgOk with lastChecked := some (5 : Int)
                           lastResults := some wResult
                           nextRun := some (getNextRunTime wCfgOk.frequency 5) } :=
  ⟨rfl, rfl, rfl,
    ((monitor_persist_or_skip wPoll 5 ⟨wStore, 0, 0⟩ "ok1" wCfgOk rfl rfl).1 wResult rfl).1⟩

theorem sweepStep_counters (poll : MonitorConfig → Except String (ExtractionResult Listing))
    (now : Int) (st : SweepState) (mid : String) :
    (sweepStep poll now st mid).processed =
        st.processed + (if stepEligibleOk poll now st mid then 1 else 0)
    ∧ (sweepStep poll now st mid).updated =
        st.updated + (if stepNewFound poll now st mid then 1 else 0)
    ∧ (stepNewFound poll now st mid = true → stepEligibleOk poll now st mid = true) := by
  unfold sweepStep stepEligibleOk stepNewFound pollSucceeds
  cases hs : st.store mid with
  | none => simp
  | some cfg =>
    dsimp only
    cases hp : poll cfg with
    | error e => by_cases hr : shouldRunMonitor cfg now = true <;> simp [hr, hp]
    | ok res =>
      by_cases hr : shouldRunMonitor cfg now = true
      · by_cases hn : (findNewListings res.listings
            (match cfg.lastResults with | some r => r.listings | none => [])).isEmpty = true
        · have h0 : (findNewListings res.listings
              (match cfg.lastResults with | some r => r.listings | none => [])) = [] :=
            List.isEmpty_iff.mp hn
          simp [hr, hp, hn, h0]
        · have hne : (findNewListings res.listings
              (match cfg.lastResults with | some r => r.listings | none => [])) ≠ [] := by
            simpa [List.isEmpty_iff] using hn
          simp [hr, hp, hn, List.length_pos.mpr hne]
      · simp [hr, hp]

theorem sweepFold_updated_le (poll : MonitorConfig → Except String (ExtractionResult Listing))
    (now : Int) (l : List String) (st : SweepState) (h : st.updated ≤ st.processed) :
    (l.foldl (sweepStep poll now) st).updated ≤ (l.foldl (sweepStep poll now) st).processed := by
  induction l generalizing st with
  | nil => simpa using h
  | cons a l ih =>
    rw [List.foldl_cons]
    apply ih
    obtain ⟨hp, hu, himp⟩ := sweepStep_counters poll now st a
    rw [hp, hu]
    by_cases hn : stepNewFound poll now st a = true
    · rw [if_pos (himp hn), if_pos hn]
      omega
    · rw [if_neg hn]
      by_cases he : stepEligibleOk poll now st a = true
      · rw [if_pos he]
        omega
      · rw [if_neg he]
        omega

theorem sweepStep_noop (poll : MonitorConfig → Except String (ExtractionResult Listing))
    (now : Int) (st : SweepState) (mid : String)
    (hdead : ∀ cfg, st.store mid = some cfg → pollSucceeds (poll cfg) = false) :
    sweepStep poll now st mid = st := by
  unfold sweepStep
  cases hs : st.store mid with
  | none => rfl
  | some cfg =>
    dsimp only
    have hf := hdead cfg hs
    by_cases hr : shouldRunMonitor cfg now = true
    · rw [if_pos hr]
      cases hp : poll cfg with
      | error e => rfl
      | ok res =>
        rw [hp] at hf
        simp [pollSucceeds] at hf
    · rw [if_neg hr]

/-- C8: the sweep iterates the external `monitors-list`; each step increments
`processed` exactly when the monitor exists, is eligible and its poll
succeeds, increments `updated` exactly when additionally the novelty diff is
non-empty (hence `updated ≤ processed` for every whole sweep), and a monitor
whose poll fails is a complete no-op for the sweep — removing it from the
list changes neither the final store nor the counters, so one monitor's
failure never aborts the sweep or affects other monitors. -/
theorem sweep_counters_and_isolation
    (poll : MonitorConfig → Except String (ExtractionResult Listing)) (now : Int) :
    (∀ (st : SweepState) (mid : String),
      (sweepStep poll now st mid).processed =
          st.processed + (if stepEligibleOk poll now st mid then 1 else 0)
      ∧ (sweepStep poll now st mid).updated =
          st.updated + (if stepNewFound poll now st mid then 1 else 0)
      ∧ (stepNewFound poll now st mid = true → stepEligibleOk poll now st mid = true))
    ∧ (∀ (monitorsList : List String) (store0 : MonitorStore),
        (processAllMonitorsModel monitorsList store0 poll now).updated ≤
          (processAllMonitorsModel monitorsList store0 poll now).processed)
    ∧ (∀ (store0 : MonitorStore) (pre post : List String) (mid : String),
        (∀ cfg, (processAllMonitorsModel pre store0 poll now).store mid = some cfg →
          pollSucceeds (poll cfg) = false) →
        processAllMonitorsModel (pre ++ mid :: post) store0 poll now =
          processAllMonitorsModel (pre ++ post) store0 poll now) := by
  refine ⟨sweepStep_counters poll now, ?_, ?_⟩
  · intro monitorsList store0
    exact sweepFold_updated_le poll now monitorsList ⟨store0, 0, 0⟩ (le_refl 0)
  · intro store0 pre post mid hdead
    unfold processAllMonitorsModel at hdead ⊢
    rw [List.foldl_append, List.foldl_append, List.foldl_cons]
    rw [sweepStep_noop poll now _ mid hdead]

/-- C8 witness: a concrete sweep over a failing monitor and a healthy one —
dropping the failing monitor from the list leaves the sweep's outcome
unchanged. -/
theorem sweep_isolation_witness :
    (∀ cfg, (processAllMonitorsModel [] wStore wPoll 5).store "bad" = some cfg →
        pollSucceeds (wPoll cfg) = false)
    ∧ processAllMonitorsModel ["bad", "ok1"] wStore wPoll 5 =
        processAllMonitorsModel ["ok1"] wStore wPoll 5 := by
  have hdead : ∀ cfg, (processAllMonitorsModel [] wStore wPoll 5).store "bad" = some cfg →
      pollSucceeds (wPoll cfg) = false := by
    intro cfg hcfg
    have h2 : some wCfgBad = some cfg := hcfg
    cases h2
    rfl
  exact ⟨hdead, (sweep_counters_and_isolation wPoll 5).2.2 wStore [] ["ok1"] "bad" hdead⟩

/-- C9 (amended): the model-extraction parser prefers a fenced JSON block and
falls back to a bare JSON-array-looking substring, returning `null` when
neither matches; it appends a closing bracket before parsing when the
candidate looks like an unterminated array; any parse failure yields `null`
(falling through to pattern extraction); and on parse success of a non-empty
array it maps every item through the synonym-accepting field mapping
(`bedrooms`|`beds`, `squareFeet`|`sqft`|`area`), tagging each listing's
source with "<source> (OpenAI extraction)" — the model used, not the literal
"model extraction". -/
theorem llm_response_parsing (jp : String → Option Json) (s source mu : String) :
    (extractFenced s = none → bareMatchString s = none →
      processLLMResponse jp s source mu = none)
    ∧ (∀ f, extractFenced s = some f → f ≠ "" → llmJsonCandidate s = some f)
    ∧ (extractFenced s = none → llmJsonCandidate s = bareMatchString s)
    ∧ (∀ t, llmJsonCandidate s = some t → jp (adjustJsonText t) = none →
        processLLMResponse jp s source mu = none)
    ∧ (∀ t xs, llmJsonCandidate s = some t → jp (adjustJsonText t) = some (Json.arr xs) →
        processLLMResponse jp s source mu =
          some { count := (xs.map (formatLLMItem source mu)).length
                 listings := xs.map (formatLLMItem source mu)
                 note := some ("Results extracted using Puppeteer and " ++ mu ++ " processing") })
    ∧ (∀ t : String, startsWithChars ("[").data t.data = true →
        endsWithChars ("]").data t.data = false → adjustJsonText t = t ++ "]")
    ∧ (∀ item, (formatLLMItem source mu item).source =
        (if source = "" then "real-estate-site" else source) ++ " (" ++ mu ++ " extraction)")
    ∧ (∀ item v, jsTruthy v = true → jsGet item "bedrooms" = Json.undefined →
        jsGet item "beds" = v → (formatLLMItem source mu item).details.bedrooms = v)
    ∧ (∀ item v, jsTruthy v = true → jsGet item "squareFeet" = Json.undefined →
        jsGet item "sqft" = Json.undefined → jsGet item "area" = v →
        (formatLLMItem source mu item).details.squareFeet = v) := by
  refine ⟨?_, ?_, ?_, ?_, ?_, ?_, ?_, ?_, ?_⟩
  · intro h1 h2
    unfold processLLMResponse llmJsonCandidate
    rw [h1]
    dsimp only
    rw [h2]
  · intro f h hne
    unfold llmJsonCandidate
    rw [h]
    dsimp only
    rw [if_neg hne]
  · intro h
    unfold llmJsonCandidate
    rw [h]
  · intro t h1 h2
    unfold processLLMResponse
    rw [h1]
    dsimp only
    rw [h2]
  · intro t xs h1 h2
    unfold processLLMResponse
    rw [h1]
    dsimp only
    rw [h2]
  · intro t h1 h2
    unfold adjustJsonText
    rw [h1, h2]
    rfl
  · intro item
    rfl
  · intro item v hv hb1 hb2
    have hund : jsTruthy Json.undefined = false := rfl
    simp [formatLLMItem, jsOr, hb1, hb2, hund, hv]
  · intro item v hv hb1 hb2 hb3
    have hund : jsTruthy Json.undefined = false := rfl
    simp [formatLLMItem, jsOr, hb1, hb2, hb3, hund, hv]

/-- C9 counterexample: on a concrete fenced response carrying one listing,
the produced provenance tag is "zillow (OpenAI extraction)", not the claimed
"zillow (model extraction)". -/
theorem llm_tag_counterexample :
    (processLLMResponse toyParse llmResponseSample "zillow" "OpenAI").map
        (fun r => r.listings.map (fun l => l.source)) = some ["zillow (OpenAI extraction)"]
    ∧ "zillow (OpenAI extraction)" ≠ "zillow (model extraction)" := by
  constructor
  · rfl
  · decide

/-- C9 witness: the amended parsing facts at a concrete fenced response and a
concrete parser agreeing with JSON semantics at the queried string. -/
theorem llm_parsing_witness :
    llmJsonCandidate llmResponseSample = some "[\x7b\"title\": \"Casa\"\x7d]"
    ∧ toyParse (adjustJsonText "[\x7b\"title\": \"Casa\"\x7d]") =
        some (Json.arr [Json.obj [("title", Json.str "Casa")]])
    ∧ processLLMResponse toyParse llmResponseSample "zillow" "OpenAI" =
        some { count := ([Json.obj [("title", Json.str "Casa")]].map
                  (formatLLMItem "zillow" "OpenAI")).length
               listings := [Json.obj [("title", Json.str "Casa")]].map
                  (formatLLMItem "zillow" "OpenAI")
               note := some ("Results extracted using Puppeteer and " ++ "OpenAI" ++ " processing") } :=
  ⟨rfl, rfl,
    (llm_response_parsing toyParse llmResponseSample "zillow" "OpenAI").2.2.2.2.1
      "[\x7b\"title\": \"Casa\"\x7d]" [Json.obj [("title", Json.str "Casa")]] rfl rfl⟩

/-- C10: every listing the pattern sub-tier produces has an empty `url`, and
for empty-url listings membership in the novelty diff is governed entirely by
the diff's empty-url handling: such a listing is reported as new exactly when
the previous list is empty or contains no empty-url listing, regardless of
any other field. -/
theorem pattern_listings_anonymous (source : String) (tk : PatternTokens) :
    (∀ l ∈ buildPatternListings source tk, l.url = "")
    ∧ (∀ (cur prev : List Listing) (l : Listing), l.url = "" →
        (l ∈ findNewListings cur prev ↔
          l ∈ cur ∧ (prev = [] ∨ ∀ p ∈ prev, p.url ≠ ""))) := by
  constructor
  · intro l hl
    unfold buildPatternListings at hl
    rw [List.mem_map] at hl
    obtain ⟨i, _, hi⟩ := hl
    rw [← hi]
  · intro cur prev l hu
    unfold findNewListings
    by_cases hp : prev.isEmpty
    · have hnil : prev = [] := List.isEmpty_iff.mp hp
      subst hnil
      simp
    · have hne : prev ≠ [] := by simpa [List.isEmpty_iff] using hp
      rw [if_neg hp, List.mem_filter]
      have hiff : ((!((prev.map (fun q => q.url)).contains l.url)) = true) ↔
          (∀ p ∈ prev, p.url ≠ "") := by
        simp only [Bool.not_eq_true', ← Bool.not_eq_true, mem_urlSet, hu]
        push_neg
        rfl
      rw [hiff]
      constructor
      · rintro ⟨hc, hall⟩
        exact ⟨hc, Or.inr hall⟩
      · rintro ⟨hc, hall | hall⟩
        · exact absurd hall hne
        · exact ⟨hc, hall⟩

/-- C10 witness: the concrete pattern listing has an empty url, and the diff
drops it exactly per the empty-url rule against a concrete previous list. -/
theorem pattern_anonymous_witness :
    wPatternListing ∈ buildPatternListings "zillow" tkW
    ∧ wPatternListing.url = ""
    ∧ (wPatternListing ∈ findNewListings [wPatternListing] [wListing] ↔
        wPatternListing ∈ [wPatternListing]
          ∧ ([wListing] = [] ∨ ∀ p ∈ [wListing], p.url ≠ "")) :=
  ⟨by decide,
   (pattern_listings_anonymous "zillow" tkW).1 wPatternListing (by decide),
   (pattern_listings_anonymous "zillow" tkW).2 [wPatternListing] [wListing] wPatternListing rfl⟩
